import Mathlib

/-!
Shallow embedding of the core workflows of the UranButeel freelance-marketplace
application: the hire transaction (`handleHire` in the proposal-review page),
the milestone escrow state machine of the contract dashboard
(`updateMilestoneStatus`, `isClient`, `isFreelancer` and the action buttons),
and the mock payment gateway (`pages/api/qpay.ts`).

Store calls are modelled as fallible: each write either succeeds (applying the
corresponding record change) or fails with an error message, controlled by an
explicit fault pattern.  JavaScript truthiness checks of the qpay handler are
modelled exactly (`!amount` rejects 0 and missing values but accepts negative
numbers; `!invoice_id` rejects the empty string).
-/

/-! ## Record statuses -/

/-- Status of a job posting (`projects.status`). -/
inductive ProjectStatus
  | open_
  | in_progress
  | completed
  | cancelled
  deriving DecidableEq

/-- Status of a proposal (`proposals.status`). -/
inductive ProposalStatus
  | pending
  | accepted
  | rejected
  deriving DecidableEq

/-- Status of a contract (`contracts.status`). -/
inductive ContractStatus
  | active
  | completed
  | cancelled
  deriving DecidableEq

/-- Status of a milestone (`milestones.status`). -/
inductive MilestoneStatus
  | pending
  | funded
  | in_review
  | released
  deriving DecidableEq, Fintype

/-- Status of a mock payment invoice. -/
inductive InvoiceStatus
  | pending
  | paid
  deriving DecidableEq

/-- Role stored in the `profiles` table. -/
inductive Role
  | client
  | freelancer
  | admin
  deriving DecidableEq

/-! ## Records of the hire transaction (`pages/manage-jobs/[id].tsx`) -/

/-- The fields of a project row read by the proposal-review page. -/
structure Project where
  id : String
  title : String
  status : ProjectStatus
  client_id : String
  budget : Option Int
  deriving DecidableEq

/-- The fields of a proposal row read by the proposal-review page. -/
structure Proposal where
  id : String
  project_id : String
  freelancer_id : String
  proposed_budget : Option Int
  cover_letter : Option String
  status : ProposalStatus
  deriving DecidableEq

/-- The contract row inserted by `handleHire`. -/
structure Contract where
  project_id : String
  client_id : String
  freelancer_id : String
  start_date : String
  total_amount : Option Int
  status : ContractStatus
  deriving DecidableEq

/-- The slice of the record store touched by the hire transaction. -/
structure DB where
  projects : List Project
  proposals : List Proposal
  contracts : List Contract
  deriving DecidableEq

/-- Fault pattern for the four store writes issued by `handleHire`.  A `some`
entry makes the corresponding supabase call return an error (and apply no
change); `none` makes it succeed. -/
structure StoreFaults where
  insertContractErr : Option String
  updateProjectErr : Option String
  acceptProposalErr : Option String
  rejectProposalsErr : Option String
  deriving DecidableEq

/-- A store in which every write succeeds. -/
def noFaults : StoreFaults := ⟨none, none, none, none⟩

/-- Observable outcome of `handleHire`: which branch set the user-visible
message and returned. -/
inductive HireResult
  | projectNotFound
  | contractInsertFailed (msg : String)
  | projectUpdateFailed (msg : String)
  | success
  deriving DecidableEq

/-- The contract row that `handleHire` inserts: `total_amount` is the
proposal's `proposed_budget ?? project.budget`, status is `active`. -/
def hiredContract (p : Project) (proposal : Proposal) (today : String) : Contract :=
  { project_id := p.id
    client_id := p.client_id
    freelancer_id := proposal.freelancer_id
    start_date := today
    total_amount :=
      match proposal.proposed_budget with
      | some b => some b
      | none => p.budget
    status := ContractStatus.active }

/-- Embedding of `handleHire` from the proposal-review page.  Mirrors the
source exactly: if the project state is missing it returns early; it then
inserts a contract (returning on store error), updates the project status to
`in_progress` (returning on store error), and finally updates the chosen
proposal to `accepted` and the sibling proposals to `rejected` — the source
ignores the errors of these last two calls and reports success regardless.
No check of the project's status or the proposal's status is performed. -/
def handleHire (db : DB) (faults : StoreFaults) (today : String)
    (project : Option Project) (proposal : Proposal) : HireResult × DB :=
  match project with
  | none => (HireResult.projectNotFound, db)
  | some p =>
    match faults.insertContractErr with
    | some m => (HireResult.contractInsertFailed m, db)
    | none =>
      let db1 : DB := { db with contracts := hiredContract p proposal today :: db.contracts }
      match faults.updateProjectErr with
      | some m => (HireResult.projectUpdateFailed m, db1)
      | none =>
        let db2 : DB := { db1 with projects := db1.projects.map fun q =>
          if q.id = p.id then { q with status := ProjectStatus.in_progress } else q }
        let db3 : DB :=
          match faults.acceptProposalErr with
          | some _ => db2
          | none => { db2 with proposals := db2.proposals.map fun q =>
              if q.id = proposal.id then { q with status := ProposalStatus.accepted } else q }
        let db4 : DB :=
          match faults.rejectProposalsErr with
          | some _ => db3
          | none => { db3 with proposals := db3.proposals.map fun q =>
              if q.id ≠ proposal.id ∧ q.project_id = p.id
              then { q with status := ProposalStatus.rejected } else q }
        (HireResult.success, db4)

/-! ## Milestone dashboard (`pages/contracts/[id].tsx`) -/

/-- The fields of a milestone row used by the contract dashboard. -/
structure Milestone where
  id : String
  contract_id : String
  title : String
  amount : Int
  status : MilestoneStatus
  updated_at : String
  deriving DecidableEq

/-- The fields of a contract row used by the dashboard's authorization. -/
structure ContractRec where
  id : String
  client_id : String
  freelancer_id : String
  deriving DecidableEq

/-- The caller's profile row (`profiles` table). -/
structure Profile where
  id : String
  role : Role
  deriving DecidableEq

/-- Outcome of the milestone status update call. -/
inductive UpdateResult
  | ok
  | err (msg : String)
  deriving DecidableEq

/-- Embedding of `updateMilestoneStatus`: an unconditional store update of the
row's `status` and `updated_at`, with no validation of the current status. -/
def updateMilestoneStatus (milestones : List Milestone) (storeErr : Option String)
    (milestoneId : String) (newStatus : MilestoneStatus) (nowIso : String) :
    UpdateResult × List Milestone :=
  match storeErr with
  | some m => (UpdateResult.err m, milestones)
  | none =>
    (UpdateResult.ok, milestones.map fun m =>
      if m.id = milestoneId then { m with status := newStatus, updated_at := nowIso } else m)

/-- Embedding of the dashboard's `isClient` flag:
`profile?.role === 'client' && contract?.client_id === profile?.id`. -/
def isClient (profile : Option Profile) (contract : Option ContractRec) : Bool :=
  match profile, contract with
  | some p, some c => decide (p.role = Role.client) && decide (c.client_id = p.id)
  | _, _ => false

/-- Embedding of the dashboard's `isFreelancer` flag. -/
def isFreelancer (profile : Option Profile) (contract : Option ContractRec) : Bool :=
  match profile, contract with
  | some p, some c => decide (p.role = Role.freelancer) && decide (c.freelancer_id = p.id)
  | _, _ => false

/-- The three milestone actions wired to dashboard buttons. -/
inductive MAction
  | fund
  | release
  | submit
  deriving DecidableEq, Fintype

/-- The status each button writes: fund → `funded`, release → `released`,
submit → `in_review`. -/
def actionTarget : MAction → MilestoneStatus
  | MAction.fund => MilestoneStatus.funded
  | MAction.release => MilestoneStatus.released
  | MAction.submit => MilestoneStatus.in_review

/-- The action buttons the dashboard renders for a milestone, from the render
conditions of the source: Fund for a client on a `pending` milestone, Release
for a client on a `funded` or `in_review` milestone, Submit Work for a
freelancer on a `funded` milestone. -/
def availableActions (isC isF : Bool) (s : MilestoneStatus) : List MAction :=
  (if isC = true ∧ s = MilestoneStatus.pending then [MAction.fund] else []) ++
  (if isC = true ∧ (s = MilestoneStatus.funded ∨ s = MilestoneStatus.in_review)
   then [MAction.release] else []) ++
  (if isF = true ∧ s = MilestoneStatus.funded then [MAction.submit] else [])

/-- The forward moves of the intended milestone state machine. -/
def isForward : MilestoneStatus → MilestoneStatus → Bool
  | MilestoneStatus.pending, MilestoneStatus.funded => true
  | MilestoneStatus.funded, MilestoneStatus.in_review => true
  | MilestoneStatus.funded, MilestoneStatus.released => true
  | MilestoneStatus.in_review, MilestoneStatus.released => true
  | _, _ => false

/-- What the contract dashboard shows a caller. -/
inductive PageView
  | accessDenied
  | dashboard (c : ContractRec) (items : List (Milestone × List MAction))
  deriving DecidableEq

/-- Embedding of the dashboard's gate: `!contract || (!isClient && !isFreelancer)`
renders the access-denied view (no contract or milestone data); otherwise each
milestone is shown with the buttons available to this caller. -/
def renderPage (profile : Option Profile) (contract : Option ContractRec)
    (milestones : List Milestone) : PageView :=
  match contract with
  | none => PageView.accessDenied
  | some c =>
    if isClient profile (some c) = false ∧ isFreelancer profile (some c) = false then
      PageView.accessDenied
    else
      PageView.dashboard c (milestones.map fun m =>
        (m, availableActions (isClient profile (some c)) (isFreelancer profile (some c)) m.status))

/-! ## Mock payment gateway (`pages/api/qpay.ts`) -/

/-- An entry of the in-memory `invoices` record. -/
structure Invoice where
  status : InvoiceStatus
  createdAt : Nat
  deriving DecidableEq

/-- The module state of the qpay endpoint: the `invoices` object and the
timers registered by `setTimeout` (invoice id, absolute fire time in ms). -/
structure QpayState where
  invoices : List (String × Invoice)
  timers : List (String × Nat)
  deriving DecidableEq

/-- Lookup in the `invoices` object (first entry with the key). -/
def lookupInv : List (String × Invoice) → String → Option Invoice
  | [], _ => none
  | e :: rest, k => if e.1 = k then some e.2 else lookupInv rest k

/-- Assignment `invoices[k] = v` of a JavaScript object: replace the existing
entry or add a new one. -/
def setInv : List (String × Invoice) → String → Invoice → List (String × Invoice)
  | [], k, v => [(k, v)]
  | e :: rest, k, v => if e.1 = k then (k, v) :: rest else e :: setInv rest k v

/-- The body of the timer callback: `if (invoices[k]) invoices[k].status = 'paid'`.
When the key is absent nothing changes. -/
def setPaid (m : List (String × Invoice)) (k : String) : List (String × Invoice) :=
  m.map fun e => if e.1 = k then (e.1, { e.2 with status := InvoiceStatus.paid }) else e

/-- A Next.js query parameter: absent, a single string, or an array of
strings (when the parameter is repeated). -/
inductive QueryParam
  | missing
  | single (s : String)
  | multiple (l : List String)
  deriving DecidableEq

/-- JavaScript truthiness of the `amount` body field: `!amount` is true for a
missing amount and for 0, and false for every other number, including
negative ones. -/
def truthyAmount : Option Int → Bool
  | none => false
  | some n => decide (n ≠ 0)

/-- JavaScript truthiness of a string body field: missing and empty strings
are falsy. -/
def truthyId : Option String → Bool
  | none => false
  | some s => decide (s ≠ "")

/-- The JSON bodies the endpoint can answer with. -/
inductive RespBody
  | errorMsg (msg : String)
  | created (invoice_id : String) (qr_url : String)
  | statusOf (s : InvoiceStatus)
  deriving DecidableEq

/-- An HTTP response of the endpoint. -/
structure Response where
  code : Nat
  body : RespBody
  deriving DecidableEq

/-- The generated invoice identifier: `` `MOCK-${Date.now()}` ``. -/
def mockInvoiceId (now : Nat) : String := "MOCK-" ++ Nat.repr now

/-- The placeholder QR code URL (encodeURIComponent is the identity on the
generated ids, which are alphanumeric plus a hyphen). -/
def qrUrlFor (invoiceId : String) : String :=
  "https://api.qrserver.com/v1/create-qr-code/?size=200x200&data=" ++ invoiceId

/-- Embedding of the qpay `handler`.  POST validates the three body fields by
truthiness and, when they pass, stores a `pending` invoice keyed by
`MOCK-<timestamp>`, registers a 10000 ms timer, and answers 200 with the id
and QR URL.  GET answers 400 for a missing, empty, or repeated `invoice_id`,
404 for an unknown id, and 200 with the status otherwise.  Every other method
is answered 405. -/
def qpayHandler (st : QpayState) (now : Nat) (method : String)
    (amount : Option Int) (contractId milestoneId : Option String)
    (invoice_id : QueryParam) : Response × QpayState :=
  if method = "POST" then
    if !truthyAmount amount || !truthyId contractId || !truthyId milestoneId then
      ({ code := 400, body := RespBody.errorMsg "amount, contractId and milestoneId are required" }, st)
    else
      let invoiceId := mockInvoiceId now
      let st1 : QpayState :=
        { invoices := setInv st.invoices invoiceId { status := InvoiceStatus.pending, createdAt := now }
          timers := (invoiceId, now + 10000) :: st.timers }
      ({ code := 200, body := RespBody.created invoiceId (qrUrlFor invoiceId) }, st1)
  else if method = "GET" then
    match invoice_id with
    | QueryParam.single s =>
      if s = "" then
        ({ code := 400, body := RespBody.errorMsg "invoice_id query param is required" }, st)
      else
        match lookupInv st.invoices s with
        | none => ({ code := 404, body := RespBody.errorMsg "invoice not found" }, st)
        | some r => ({ code := 200, body := RespBody.statusOf r.status }, st)
    | QueryParam.missing =>
      ({ code := 400, body := RespBody.errorMsg "invoice_id query param is required" }, st)
    | QueryParam.multiple _ =>
      ({ code := 400, body := RespBody.errorMsg "invoice_id query param is required" }, st)
  else
    ({ code := 405, body := RespBody.errorMsg "Method not allowed" }, st)

/-- The status lookup performed by the GET branch, as the spec's
`getInvoiceStatus` operation: `none` is the not-found condition. -/
def getInvoiceStatus (st : QpayState) (invoiceId : String) : Option InvoiceStatus :=
  (lookupInv st.invoices invoiceId).map fun r => r.status

/-- Fire every timer whose time has come: each due timer marks its invoice
paid (a no-op when the id is absent, as in the source's callback guard) and is
removed from the timer list. -/
def fireDue (st : QpayState) (now : Nat) : QpayState :=
  { invoices := st.timers.foldl (fun acc t => if t.2 ≤ now then setPaid acc t.1 else acc) st.invoices
    timers := st.timers.filter fun t => decide (now < t.2) }

/-- Decimal digit value of a character, inverse of `Nat.digitChar` on 0–9. -/
def digitVal (c : Char) : Nat :=
  if c = '0' then 0 else if c = '1' then 1 else if c = '2' then 2 else
  if c = '3' then 3 else if c = '4' then 4 else if c = '5' then 5 else
  if c = '6' then 6 else if c = '7' then 7 else if c = '8' then 8 else
  if c = '9' then 9 else 0

/-- Decode a decimal digit list left to right onto an accumulator. -/
def decodeFrom (acc : Nat) : List Char → Nat
  | [] => acc
  | c :: rest => decodeFrom (acc * 10 + digitVal c) rest

/-! ## Helper lemmas -/

theorem lookupInv_setInv_self (m : List (String × Invoice)) (k : String) (v : Invoice) :
    lookupInv (setInv m k v) k = some v := by
  induction m with
  | nil => simp [setInv, lookupInv]
  | cons e rest ih =>
    by_cases h : e.1 = k
    · simp [setInv, h, lookupInv]
    · simp [setInv, h, lookupInv, ih]

theorem lookupInv_setPaid (m : List (String × Invoice)) (k i : String) :
    lookupInv (setPaid m k) i =
      (lookupInv m i).map fun r => if i = k then { r with status := InvoiceStatus.paid } else r := by
  induction m with
  | nil => simp [setPaid, lookupInv]
  | cons e rest ih =>
    by_cases hek : e.1 = k
    · by_cases hei : e.1 = i
      · have hik : i = k := by rw [← hei, hek]
        simp [setPaid, lookupInv, hek, hei, hik]
      · simp only [setPaid, List.map_cons, if_pos hek]
        simp only [lookupInv, hei, if_neg hei, if_false]
        simpa [setPaid] using ih
    · by_cases hei : e.1 = i
      · have hik : ¬ i = k := fun hc => hek (by rw [hei, hc])
        simp [setPaid, lookupInv, hek, hei, hik]
      · simp only [setPaid, List.map_cons, if_neg hek]
        simp only [lookupInv, hei, if_neg hei, if_false]
        simpa [setPaid] using ih

theorem lookupInv_foldl_paid (ts : List (String × Nat)) (tq : Nat) :
    ∀ (inv : List (String × Invoice)) (i : String) (r : Invoice),
      lookupInv inv i = some r → r.status = InvoiceStatus.paid →
      ∃ r2, lookupInv
          (ts.foldl (fun acc t => if t.2 ≤ tq then setPaid acc t.1 else acc) inv) i = some r2 ∧
        r2.status = InvoiceStatus.paid := by
  induction ts with
  | nil => intro inv i r h hp; exact ⟨r, h, hp⟩
  | cons t rest ih =>
    intro inv i r h hp
    simp only [List.foldl_cons]
    by_cases hd : t.2 ≤ tq
    · rw [if_pos hd]
      refine ih (setPaid inv t.1) i
        (if i = t.1 then { r with status := InvoiceStatus.paid } else r) ?_ ?_
      · rw [lookupInv_setPaid, h, Option.map_some']
      · by_cases hi : i = t.1 <;> simp [hi, hp]
    · rw [if_neg hd]
      exact ih inv i r h hp

theorem digitVal_digitChar : ∀ r : Nat, r < 10 → digitVal (Nat.digitChar r) = r := by decide

theorem decodeFrom_toDigitsCore :
    ∀ (fuel n : Nat) (ds : List Char), n < fuel →
      decodeFrom 0 (Nat.toDigitsCore 10 fuel n ds) = decodeFrom n ds := by
  intro fuel
  induction fuel with
  | zero => intro n ds h; omega
  | succ f ih =>
    intro n ds h
    by_cases hq : n / 10 = 0
    · have h10 : n < 10 := by omega
      have hmod : n % 10 = n := by omega
      simp [Nat.toDigitsCore, hq, decodeFrom, hmod, digitVal_digitChar n h10]
    · have hlt : n / 10 < f := by omega
      have h10 : n % 10 < 10 := Nat.mod_lt _ (by omega)
      simp only [Nat.toDigitsCore, hq, if_false]
      rw [ih (n / 10) (Nat.digitChar (n % 10) :: ds) hlt]
      simp only [decodeFrom, digitVal_digitChar _ h10]
      have harith : n / 10 * 10 + n % 10 = n := by omega
      rw [harith]

theorem natRepr_injective (a b : Nat) (h : Nat.repr a = Nat.repr b) : a = b := by
  have hd : Nat.toDigits 10 a = Nat.toDigits 10 b := congrArg String.data h
  have ha : decodeFrom 0 (Nat.toDigits 10 a) = a := by
    rw [Nat.toDigits]
    exact decodeFrom_toDigitsCore (a + 1) a [] (Nat.lt_succ_self a)
  have hb : decodeFrom 0 (Nat.toDigits 10 b) = b := by
    rw [Nat.toDigits]
    exact decodeFrom_toDigitsCore (b + 1) b [] (Nat.lt_succ_self b)
  rw [← ha, ← hb, hd]

theorem mockInvoiceId_injective (t u : Nat) (h : mockInvoiceId t = mockInvoiceId u) : t = u := by
  apply natRepr_injective
  have hd := congrArg String.data h
  simp only [mockInvoiceId, String.data_append] at hd
  exact String.ext (List.append_cancel_left hd)

theorem handleHire_noFaults (db : DB) (today : String) (p : Project) (prop : Proposal) :
    handleHire db noFaults today (some p) prop =
      (HireResult.success,
        { projects := db.projects.map fun q =>
            if q.id = p.id then { q with status := ProjectStatus.in_progress } else q
          proposals := (db.proposals.map fun q =>
              if q.id = prop.id then { q with status := ProposalStatus.accepted } else q).map
            fun q =>
              if q.id ≠ prop.id ∧ q.project_id = p.id
              then { q with status := ProposalStatus.rejected } else q
          contracts := hiredContract p prop today :: db.contracts }) := rfl

theorem fund_requires_client : ∀ (isC isF : Bool) (s : MilestoneStatus),
    MAction.fund ∈ availableActions isC isF s → isC = true := by decide

theorem release_requires_client : ∀ (isC isF : Bool) (s : MilestoneStatus),
    MAction.release ∈ availableActions isC isF s → isC = true := by decide

theorem submit_requires_freelancer : ∀ (isC isF : Bool) (s : MilestoneStatus),
    MAction.submit ∈ availableActions isC isF s → isF = true := by decide

theorem isClient_spec (p : Option Profile) (c : ContractRec) (h : isClient p (some c) = true) :
    ∃ prof, p = some prof ∧ prof.role = Role.client ∧ c.client_id = prof.id := by
  cases p with
  | none => simp [isClient] at h
  | some prof =>
    simp only [isClient, Bool.and_eq_true, decide_eq_true_eq] at h
    exact ⟨prof, rfl, h.1, h.2⟩

theorem isFreelancer_spec (p : Option Profile) (c : ContractRec)
    (h : isFreelancer p (some c) = true) :
    ∃ prof, p = some prof ∧ prof.role = Role.freelancer ∧ c.freelancer_id = prof.id := by
  cases p with
  | none => simp [isFreelancer] at h
  | some prof =>
    simp only [isFreelancer, Bool.and_eq_true, decide_eq_true_eq] at h
    exact ⟨prof, rfl, h.1, h.2⟩

/-! ## Claim theorems -/

/-- Claim C1, amended: the claim as stated fails because `handleHire` reports
success even when the proposal accept/reject store writes fail (their errors
are ignored).  Amended to runs in which every store write succeeds: after a
hire on a pending proposal `p0` of an open project `P` owned by the calling
client, with no pre-existing contract for `P`, the workflow reports success,
`p0` is accepted, every other proposal of `P` is rejected, exactly one
contract for `P` exists and its total amount is `p0`'s proposed budget if
present, else `P`'s budget, and `P`'s status is `in_progress`. -/
theorem C1_hire_success_postconditions (db : DB) (today : String) (u : Profile)
    (P : Project) (p0 : Proposal)
    (hrole : u.role = Role.client) (hown : P.client_id = u.id)
    (hopen : P.status = ProjectStatus.open_) (hpend : p0.status = ProposalStatus.pending)
    (hproj : p0.project_id = P.id)
    (hnoc : ∀ c ∈ db.contracts, c.project_id ≠ P.id) :
    (handleHire db noFaults today (some P) p0).1 = HireResult.success ∧
    (∀ q ∈ (handleHire db noFaults today (some P) p0).2.proposals,
      q.id = p0.id → q.status = ProposalStatus.accepted) ∧
    (∀ q ∈ (handleHire db noFaults today (some P) p0).2.proposals,
      q.project_id = P.id → q.id ≠ p0.id → q.status = ProposalStatus.rejected) ∧
    ((handleHire db noFaults today (some P) p0).2.contracts.filter fun c =>
      decide (c.project_id = P.id)).length = 1 ∧
    (∀ c ∈ (handleHire db noFaults today (some P) p0).2.contracts, c.project_id = P.id →
      c.total_amount =
        match p0.proposed_budget with
        | some b => some b
        | none => P.budget) ∧
    (∀ q ∈ (handleHire db noFaults today (some P) p0).2.projects,
      q.id = P.id → q.status = ProjectStatus.in_progress) := by
  rw [handleHire_noFaults]
  refine ⟨rfl, ?_, ?_, ?_, ?_, ?_⟩
  · intro q hq hid
    simp only [List.mem_map] at hq
    obtain ⟨q1, hq1, rfl⟩ := hq
    obtain ⟨q0, hq0, rfl⟩ := hq1
    by_cases h0 : q0.id = p0.id
    · simp [h0]
    · by_cases hp : q0.project_id = P.id <;> simp [h0, hp] at hid
  · intro q hq hqp hqid
    simp only [List.mem_map] at hq
    obtain ⟨q1, hq1, rfl⟩ := hq
    obtain ⟨q0, hq0, rfl⟩ := hq1
    by_cases h0 : q0.id = p0.id
    · simp [h0] at hqid
    · by_cases hp : q0.project_id = P.id
      · simp [h0, hp]
      · simp [h0, hp] at hqp
  · simp only [List.filter_cons]
    have hhead : (decide ((hiredContract P p0 today).project_id = P.id)) = true := by
      simp [hiredContract]
    rw [if_pos hhead]
    have htail : db.contracts.filter (fun c => decide (c.project_id = P.id)) = [] := by
      rw [List.filter_eq_nil_iff]
      intro c hc
      simpa using hnoc c hc
    simp [htail]
  · intro c hc hcp
    rcases List.mem_cons.mp hc with hc1 | hc2
    · subst hc1
      simp [hiredContract]
    · exact absurd hcp (hnoc c hc2)
  · intro q hq hid
    simp only [List.mem_map] at hq
    obtain ⟨q0, hq0, rfl⟩ := hq
    by_cases h0 : q0.id = P.id
    · simp [h0]
    · simp [h0] at hid

/-- Witness for C1: a concrete hire on an open project with a pending chosen
proposal and one sibling proposal. -/
theorem C1_hire_success_postconditions_witness :
    (handleHire
      ⟨[⟨"P1", "Site", ProjectStatus.open_, "c1", some 500⟩],
       [⟨"pr1", "P1", "f1", some 400, none, ProposalStatus.pending⟩,
        ⟨"pr2", "P1", "f2", none, none, ProposalStatus.pending⟩], []⟩
      noFaults "2024-05-01"
      (some ⟨"P1", "Site", ProjectStatus.open_, "c1", some 500⟩)
      ⟨"pr1", "P1", "f1", some 400, none, ProposalStatus.pending⟩).1 = HireResult.success ∧
    (∀ q ∈ (handleHire
      ⟨[⟨"P1", "Site", ProjectStatus.open_, "c1", some 500⟩],
       [⟨"pr1", "P1", "f1", some 400, none, ProposalStatus.pending⟩,
        ⟨"pr2", "P1", "f2", none, none, ProposalStatus.pending⟩], []⟩
      noFaults "2024-05-01"
      (some ⟨"P1", "Site", ProjectStatus.open_, "c1", some 500⟩)
      ⟨"pr1", "P1", "f1", some 400, none, ProposalStatus.pending⟩).2.proposals,
      q.id = "pr1" → q.status = ProposalStatus.accepted) :=
  ⟨(C1_hire_success_postconditions
      ⟨[⟨"P1", "Site", ProjectStatus.open_, "c1", some 500⟩],
       [⟨"pr1", "P1", "f1", some 400, none, ProposalStatus.pending⟩,
        ⟨"pr2", "P1", "f2", none, none, ProposalStatus.pending⟩], []⟩
      "2024-05-01" ⟨"c1", Role.client⟩
      ⟨"P1", "Site", ProjectStatus.open_, "c1", some 500⟩
      ⟨"pr1", "P1", "f1", some 400, none, ProposalStatus.pending⟩
      rfl rfl rfl rfl rfl (by decide)).1,
   (C1_hire_success_postconditions
      ⟨[⟨"P1", "Site", ProjectStatus.open_, "c1", some 500⟩],
       [⟨"pr1", "P1", "f1", some 400, none, ProposalStatus.pending⟩,
        ⟨"pr2", "P1", "f2", none, none, ProposalStatus.pending⟩], []⟩
      "2024-05-01" ⟨"c1", Role.client⟩
      ⟨"P1", "Site", ProjectStatus.open_, "c1", some 500⟩
      ⟨"pr1", "P1", "f1", some 400, none, ProposalStatus.pending⟩
      rfl rfl rfl rfl rfl (by decide)).2.1⟩

/-- Counterexample to C1 as stated: with a store that fails the
proposal-accept write (whose error the source ignores), the workflow reports
success, yet the chosen pending proposal of the open project never becomes
accepted — it is still `pending` afterwards. -/
theorem C1_counterexample :
    handleHire
      ⟨[⟨"P1", "Site", ProjectStatus.open_, "c1", some 500⟩],
       [⟨"pr1", "P1", "f1", some 400, none, ProposalStatus.pending⟩], []⟩
      ⟨none, none, some "db error", none⟩ "2024-05-01"
      (some ⟨"P1", "Site", ProjectStatus.open_, "c1", some 500⟩)
      ⟨"pr1", "P1", "f1", some 400, none, ProposalStatus.pending⟩ =
    (HireResult.success,
      ⟨[⟨"P1", "Site", ProjectStatus.in_progress, "c1", some 500⟩],
       [⟨"pr1", "P1", "f1", some 400, none, ProposalStatus.pending⟩],
       [⟨"P1", "c1", "f1", "2024-05-01", some 400, ContractStatus.active⟩]⟩) := by decide

/-- Claim C2, amended: the claim as stated fails because the code contains no
invalid-state-transition check at all — `updateMilestoneStatus` writes any
requested status over any current status.  Amended: the dashboard only ever
requests the forward moves (every button offered for a milestone in status `s`
targets a status `s2` with `isForward s s2`), while `updateMilestoneStatus`
itself accepts every requested transition without validation: with a
succeeding store it reports ok and sets every milestone with the requested id
to the requested status, whatever the previous status was. -/
theorem C2_forward_moves_ui_only (isC isF : Bool) (s : MilestoneStatus) (a : MAction) :
    (a ∈ availableActions isC isF s → isForward s (actionTarget a) = true) ∧
    ∀ (ms : List Milestone) (mid : String) (ns : MilestoneStatus) (tstamp : String),
      (updateMilestoneStatus ms none mid ns tstamp).1 = UpdateResult.ok ∧
      ∀ m ∈ (updateMilestoneStatus ms none mid ns tstamp).2, m.id = mid → m.status = ns := by
  constructor
  · revert isC isF s a; decide
  · intro ms mid ns tstamp
    constructor
    · rfl
    · intro m hm hid
      simp only [updateMilestoneStatus, List.mem_map] at hm
      obtain ⟨m0, hm0, rfl⟩ := hm
      by_cases h : m0.id = mid
      · simp [h]
      · simp [h] at hid
/-- Witness for C2 (amended): the Fund button on a pending milestone is a
forward move, and a concrete update with a succeeding store reports ok. -/
theorem C2_forward_moves_ui_only_witness :
    isForward MilestoneStatus.pending (actionTarget MAction.fund) = true ∧
    (updateMilestoneStatus [] none "m1" MilestoneStatus.funded "t1").1 = UpdateResult.ok :=
  ⟨(C2_forward_moves_ui_only true false MilestoneStatus.pending MAction.fund).1 (by decide),
   ((C2_forward_moves_ui_only true false MilestoneStatus.pending MAction.fund).2
      [] "m1" MilestoneStatus.funded "t1").1⟩

/-- Counterexample to C2 as stated: a released → funded request is not
rejected as an invalid-state-transition error — `updateMilestoneStatus`
reports ok and regresses the milestone's status to `funded`. -/
theorem C2_counterexample :
    updateMilestoneStatus [⟨"m1", "ct1", "Design", 100, MilestoneStatus.released, "t0"⟩]
      none "m1" MilestoneStatus.funded "t5" =
    (UpdateResult.ok, [⟨"m1", "ct1", "Design", 100, MilestoneStatus.funded, "t5"⟩]) := by decide

/-- Claim C3, amended: the claim as stated fails because `handleHire` never
reads the project's status.  Amended: a hire attempt on a project whose status
is not `open` proceeds exactly as on an open project — no conflict failure is
raised, the workflow reports success, and (with a succeeding store) a new
Contract record is created. -/
theorem C3_nonopen_hire_proceeds (db : DB) (today : String) (P : Project) (p0 : Proposal)
    (hstatus : P.status ≠ ProjectStatus.open_) :
    (handleHire db noFaults today (some P) p0).1 = HireResult.success ∧
    (handleHire db noFaults today (some P) p0).2.contracts.length = db.contracts.length + 1 := by
  rw [handleHire_noFaults]
  exact ⟨rfl, by simp⟩

/-- Witness for C3: a concrete hire on an `in_progress` project. -/
theorem C3_nonopen_hire_proceeds_witness :
    (handleHire ⟨[], [], []⟩ noFaults "2024-05-01"
      (some ⟨"P1", "Site", ProjectStatus.in_progress, "c1", some 500⟩)
      ⟨"pr1", "P1", "f1", some 400, none, ProposalStatus.pending⟩).1 = HireResult.success ∧
    (handleHire ⟨[], [], []⟩ noFaults "2024-05-01"
      (some ⟨"P1", "Site", ProjectStatus.in_progress, "c1", some 500⟩)
      ⟨"pr1", "P1", "f1", some 400, none, ProposalStatus.pending⟩).2.contracts.length = 0 + 1 :=
  C3_nonopen_hire_proceeds ⟨[], [], []⟩ "2024-05-01"
    ⟨"P1", "Site", ProjectStatus.in_progress, "c1", some 500⟩
    ⟨"pr1", "P1", "f1", some 400, none, ProposalStatus.pending⟩ (by decide)

/-- Counterexample to C3 as stated: hiring on an `in_progress` (non-open)
project does not fail with a conflict — the workflow reports success and a
new Contract record is inserted. -/
theorem C3_counterexample :
    handleHire
      ⟨[⟨"P1", "Site", ProjectStatus.in_progress, "c1", some 500⟩],
       [⟨"pr1", "P1", "f1", some 400, none, ProposalStatus.pending⟩], []⟩
      noFaults "2024-05-01"
      (some ⟨"P1", "Site", ProjectStatus.in_progress, "c1", some 500⟩)
      ⟨"pr1", "P1", "f1", some 400, none, ProposalStatus.pending⟩ =
    (HireResult.success,
      ⟨[⟨"P1", "Site", ProjectStatus.in_progress, "c1", some 500⟩],
       [⟨"pr1", "P1", "f1", some 400, none, ProposalStatus.accepted⟩],
       [⟨"P1", "c1", "f1", "2024-05-01", some 400, ContractStatus.active⟩]⟩) := by decide

/-- Claim C5, amended: the claim as stated fails because the source ignores
the errors of the two proposal-status writes.  Amended: a failure of the
contract-insert step is reported as a contract-insert failure with the store's
message and applies no change; a failure of the project-update step is
reported as a project-update failure with the store's message; but when those
two steps succeed the workflow reports success regardless of whether the
proposal accept/reject writes failed. -/
theorem C5_step_failure_reporting (db : DB) (faults : StoreFaults) (today : String)
    (P : Project) (p0 : Proposal) :
    (∀ m, faults.insertContractErr = some m →
      handleHire db faults today (some P) p0 = (HireResult.contractInsertFailed m, db)) ∧
    (∀ m, faults.insertContractErr = none → faults.updateProjectErr = some m →
      (handleHire db faults today (some P) p0).1 = HireResult.projectUpdateFailed m) ∧
    (faults.insertContractErr = none → faults.updateProjectErr = none →
      (handleHire db faults today (some P) p0).1 = HireResult.success) := by
  refine ⟨?_, ?_, ?_⟩
  · intro m h
    simp [handleHire, h]
  · intro m h1 h2
    simp [handleHire, h1, h2]
  · intro h1 h2
    cases ha : faults.acceptProposalErr <;> cases hr : faults.rejectProposalsErr <;>
      simp [handleHire, h1, h2, ha, hr]

/-- Witness for C5: a failing contract insert surfaces as a contract-insert
failure; with the first two writes succeeding the workflow reports success. -/
theorem C5_step_failure_reporting_witness :
    handleHire ⟨[], [], []⟩ ⟨some "dup key", none, none, none⟩ "2024-05-01"
      (some ⟨"P1", "Site", ProjectStatus.open_, "c1", some 500⟩)
      ⟨"pr1", "P1", "f1", some 400, none, ProposalStatus.pending⟩ =
      (HireResult.contractInsertFailed "dup key", ⟨[], [], []⟩) ∧
    (handleHire ⟨[], [], []⟩ noFaults "2024-05-01"
      (some ⟨"P1", "Site", ProjectStatus.open_, "c1", some 500⟩)
      ⟨"pr1", "P1", "f1", some 400, none, ProposalStatus.pending⟩).1 = HireResult.success :=
  ⟨(C5_step_failure_reporting ⟨[], [], []⟩ ⟨some "dup key", none, none, none⟩ "2024-05-01"
      ⟨"P1", "Site", ProjectStatus.open_, "c1", some 500⟩
      ⟨"pr1", "P1", "f1", some 400, none, ProposalStatus.pending⟩).1 "dup key" rfl,
   (C5_step_failure_reporting ⟨[], [], []⟩ noFaults "2024-05-01"
      ⟨"P1", "Site", ProjectStatus.open_, "c1", some 500⟩
      ⟨"pr1", "P1", "f1", some 400, none, ProposalStatus.pending⟩).2.2 rfl rfl⟩

/-- Counterexample to C5 as stated: when the sibling-reject store write fails,
the workflow still reports success to the caller — the failing step is never
surfaced. -/
theorem C5_counterexample :
    (handleHire
      ⟨[⟨"P2", "App", ProjectStatus.open_, "c2", some 900⟩],
       [⟨"pr3", "P2", "f3", some 800, none, ProposalStatus.pending⟩,
        ⟨"pr4", "P2", "f4", some 700, none, ProposalStatus.pending⟩], []⟩
      ⟨none, none, none, some "db error"⟩ "2024-06-01"
      (some ⟨"P2", "App", ProjectStatus.open_, "c2", some 900⟩)
      ⟨"pr3", "P2", "f3", some 800, none, ProposalStatus.pending⟩).1 =
      HireResult.success := by decide

/-- Claim C4: the dashboard offers the Fund and Release actions only when
`isClient` holds — the caller's resolved role is `client` and their id equals
the contract's `client_id` — and offers Submit Work only when `isFreelancer`
holds — role `freelancer` and id equal to the contract's `freelancer_id`.  A
caller for whom neither flag holds is shown the access-denied view, with no
contract or milestone data and hence none of the three mutating actions. -/
theorem C4_milestone_authorization (p : Option Profile) (c : ContractRec)
    (s : MilestoneStatus) (ct : Option ContractRec) (ms : List Milestone) :
    (MAction.fund ∈ availableActions (isClient p (some c)) (isFreelancer p (some c)) s →
      ∃ prof, p = some prof ∧ prof.role = Role.client ∧ c.client_id = prof.id) ∧
    (MAction.release ∈ availableActions (isClient p (some c)) (isFreelancer p (some c)) s →
      ∃ prof, p = some prof ∧ prof.role = Role.client ∧ c.client_id = prof.id) ∧
    (MAction.submit ∈ availableActions (isClient p (some c)) (isFreelancer p (some c)) s →
      ∃ prof, p = some prof ∧ prof.role = Role.freelancer ∧ c.freelancer_id = prof.id) ∧
    (isClient p ct = false → isFreelancer p ct = false →
      renderPage p ct ms = PageView.accessDenied) := by
  refine ⟨?_, ?_, ?_, ?_⟩
  · intro h
    exact isClient_spec p c (fund_requires_client _ _ _ h)
  · intro h
    exact isClient_spec p c (release_requires_client _ _ _ h)
  · intro h
    exact isFreelancer_spec p c (submit_requires_freelancer _ _ _ h)
  · intro h1 h2
    cases ct with
    | none => rfl
    | some c2 => simp [renderPage, h1, h2]

/-- Witness for C4: the Fund action offered to the owning client resolves
that caller, and an admin unrelated to the contract gets the denied view. -/
theorem C4_milestone_authorization_witness :
    (∃ prof, (some (⟨"u1", Role.client⟩ : Profile)) = some prof ∧
      prof.role = Role.client ∧ (⟨"ct1", "u1", "f1"⟩ : ContractRec).client_id = prof.id) ∧
    renderPage (some ⟨"x9", Role.admin⟩) (some ⟨"ct1", "u1", "f1"⟩) [] =
      PageView.accessDenied :=
  ⟨(C4_milestone_authorization (some ⟨"u1", Role.client⟩) ⟨"ct1", "u1", "f1"⟩
      MilestoneStatus.pending none []).1 (by decide),
   (C4_milestone_authorization (some ⟨"x9", Role.admin⟩) ⟨"ct1", "u1", "f1"⟩
      MilestoneStatus.pending (some ⟨"ct1", "u1", "f1"⟩) []).2.2.2 (by decide) (by decide)⟩

/-- Claim C6: a valid POST creates an invoice that an immediate status lookup
reports as `pending`, and once the fixed 10000 ms delay has elapsed and the
timer fired, the same invoice id reports `paid`, with no further caller
action. -/
theorem C6_invoice_lifecycle (st : QpayState) (now : Nat)
    (amount : Option Int) (contractId milestoneId : Option String)
    (h1 : truthyAmount amount = true) (h2 : truthyId contractId = true)
    (h3 : truthyId milestoneId = true) :
    ∃ st1,
      qpayHandler st now "POST" amount contractId milestoneId QueryParam.missing =
        ({ code := 200,
           body := RespBody.created (mockInvoiceId now) (qrUrlFor (mockInvoiceId now)) }, st1) ∧
      getInvoiceStatus st1 (mockInvoiceId now) = some InvoiceStatus.pending ∧
      ∀ t, now + 10000 ≤ t →
        getInvoiceStatus (fireDue st1 t) (mockInvoiceId now) = some InvoiceStatus.paid := by
  refine ⟨{ invoices := setInv st.invoices (mockInvoiceId now) ⟨InvoiceStatus.pending, now⟩
            timers := (mockInvoiceId now, now + 10000) :: st.timers }, ?_, ?_, ?_⟩
  · simp [qpayHandler, h1, h2, h3]
  · simp [getInvoiceStatus, lookupInv_setInv_self]
  · intro t ht
    have hstart :
        lookupInv (setPaid (setInv st.invoices (mockInvoiceId now)
            ⟨InvoiceStatus.pending, now⟩) (mockInvoiceId now)) (mockInvoiceId now) =
          some ⟨InvoiceStatus.paid, now⟩ := by
      rw [lookupInv_setPaid, lookupInv_setInv_self]
      simp
    obtain ⟨r2, hr2, hp2⟩ :=
      lookupInv_foldl_paid st.timers t _ (mockInvoiceId now) ⟨InvoiceStatus.paid, now⟩ hstart rfl
    simp only [getInvoiceStatus, fireDue, List.foldl_cons, if_pos ht]
    rw [hr2]
    simp [hp2]

/-- Witness for C6: a concrete invoice of amount 100 for contract c1 and
milestone m1 created at time 0 over the empty store. -/
theorem C6_invoice_lifecycle_witness :
    ∃ st1,
      qpayHandler ⟨[], []⟩ 0 "POST" (some 100) (some "c1") (some "m1") QueryParam.missing =
        ({ code := 200,
           body := RespBody.created (mockInvoiceId 0) (qrUrlFor (mockInvoiceId 0)) }, st1) ∧
      getInvoiceStatus st1 (mockInvoiceId 0) = some InvoiceStatus.pending ∧
      ∀ t, 0 + 10000 ≤ t →
        getInvoiceStatus (fireDue st1 t) (mockInvoiceId 0) = some InvoiceStatus.paid :=
  C6_invoice_lifecycle ⟨[], []⟩ 0 (some 100) (some "c1") (some "m1")
    (by decide) (by decide) (by decide)

/-- Claim C7, amended: the claim as stated fails because the source validates
the body by JavaScript truthiness (`!amount`), not by `amount > 0`: a
negative amount passes validation and creates an invoice.  Amended: whenever
a body field is falsy — the amount missing or 0, or an id missing or empty —
the POST answers 400 and leaves the invoice store unchanged; amounts below
zero are not rejected. -/
theorem C7_truthiness_validation (st : QpayState) (now : Nat) (amount : Option Int)
    (contractId milestoneId : Option String) (q : QueryParam)
    (h : truthyAmount amount = false ∨ truthyId contractId = false ∨
      truthyId milestoneId = false) :
    qpayHandler st now "POST" amount contractId milestoneId q =
      ({ code := 400,
         body := RespBody.errorMsg "amount, contractId and milestoneId are required" }, st) := by
  rcases h with h | h | h <;> simp [qpayHandler, h]

/-- Witness for C7 (amended): amount 0 is rejected with 400 and no invoice. -/
theorem C7_truthiness_validation_witness :
    qpayHandler ⟨[], []⟩ 3 "POST" (some 0) (some "c1") (some "m1") QueryParam.missing =
      ({ code := 400,
         body := RespBody.errorMsg "amount, contractId and milestoneId are required" },
       ⟨[], []⟩) :=
  C7_truthiness_validation ⟨[], []⟩ 3 (some 0) (some "c1") (some "m1") QueryParam.missing
    (Or.inl (by decide))

/-- Counterexample to C7 as stated: a createInvoice request with the negative
amount -5 is not answered 400 — it is accepted with 200 and an invoice record
is created. -/
theorem C7_counterexample :
    (qpayHandler ⟨[], []⟩ 7 "POST" (some (-5)) (some "c1") (some "m1")
      QueryParam.missing).1.code = 200 ∧
    (qpayHandler ⟨[], []⟩ 7 "POST" (some (-5)) (some "c1") (some "m1")
      QueryParam.missing).2.invoices = [("MOCK-7", ⟨InvoiceStatus.pending, 7⟩)] := by decide

/-- Claim C8: on GET, an invoice id that resolves to no invoice yields 404, a
missing invoice_id parameter yields 400, and any method other than POST and
GET yields 405. -/
theorem C8_endpoint_error_codes (st : QpayState) (now : Nat) (amount : Option Int)
    (contractId milestoneId : Option String) :
    (∀ s : String, s ≠ "" → lookupInv st.invoices s = none →
      (qpayHandler st now "GET" amount contractId milestoneId (QueryParam.single s)).1 =
        { code := 404, body := RespBody.errorMsg "invoice not found" }) ∧
    ((qpayHandler st now "GET" amount contractId milestoneId QueryParam.missing).1 =
      { code := 400, body := RespBody.errorMsg "invoice_id query param is required" }) ∧
    (∀ method : String, method ≠ "POST" → method ≠ "GET" → ∀ q : QueryParam,
      (qpayHandler st now method amount contractId milestoneId q).1 =
        { code := 405, body := RespBody.errorMsg "Method not allowed" }) := by
  refine ⟨?_, ?_, ?_⟩
  · intro s hs hl
    simp [qpayHandler, hs, hl]
  · simp [qpayHandler]
  · intro method hp hg q
    simp [qpayHandler, hp, hg]

/-- Witness for C8: an unknown id over the empty store yields 404 and DELETE
yields 405. -/
theorem C8_endpoint_error_codes_witness :
    (qpayHandler ⟨[], []⟩ 0 "GET" none none none (QueryParam.single "zzz")).1 =
      { code := 404, body := RespBody.errorMsg "invoice not found" } ∧
    (qpayHandler ⟨[], []⟩ 0 "DELETE" none none none QueryParam.missing).1 =
      { code := 405, body := RespBody.errorMsg "Method not allowed" } :=
  ⟨(C8_endpoint_error_codes ⟨[], []⟩ 0 none none none).1 "zzz" (by decide) rfl,
   (C8_endpoint_error_codes ⟨[], []⟩ 0 none none none).2.2 "DELETE" (by decide) (by decide)
     QueryParam.missing⟩

theorem post_created_id (st : QpayState) (t : Nat) (amount : Option Int)
    (cid mid : Option String) (idv qrv : String)
    (h : (qpayHandler st t "POST" amount cid mid QueryParam.missing).1.body =
      RespBody.created idv qrv) :
    idv = mockInvoiceId t := by
  by_cases hv : (!truthyAmount amount || !truthyId cid || !truthyId mid) = true
  · simp [qpayHandler, hv] at h
  · simp [qpayHandler, hv] at h
    exact h.1.symm

/-- Claim C9, amended: the claim as stated fails because the identifier is
`MOCK-` followed by the creation timestamp in milliseconds, so two calls in
the same millisecond receive the same identifier (and the later call
overwrites the earlier invoice).  Amended: identifiers returned by successful
createInvoice calls at distinct timestamps are distinct. -/
theorem C9_ids_distinct_across_timestamps (st1 st2 : QpayState) (t1 t2 : Nat)
    (amount1 amount2 : Option Int) (cid1 cid2 mid1 mid2 : Option String)
    (id1 qr1 id2 qr2 : String)
    (h1 : (qpayHandler st1 t1 "POST" amount1 cid1 mid1 QueryParam.missing).1.body =
      RespBody.created id1 qr1)
    (h2 : (qpayHandler st2 t2 "POST" amount2 cid2 mid2 QueryParam.missing).1.body =
      RespBody.created id2 qr2)
    (hne : t1 ≠ t2) :
    id1 ≠ id2 := by
  rw [post_created_id st1 t1 amount1 cid1 mid1 id1 qr1 h1,
    post_created_id st2 t2 amount2 cid2 mid2 id2 qr2 h2]
  intro hc
  exact hne (mockInvoiceId_injective t1 t2 hc)

/-- Witness for C9 (amended): invoices created at times 3 and 4 get distinct
identifiers. -/
theorem C9_ids_distinct_across_timestamps_witness :
    mockInvoiceId 3 ≠ mockInvoiceId 4 :=
  C9_ids_distinct_across_timestamps ⟨[], []⟩ ⟨[], []⟩ 3 4
    (some 100) (some 100) (some "c1") (some "c1") (some "m1") (some "m1")
    (mockInvoiceId 3) (qrUrlFor (mockInvoiceId 3))
    (mockInvoiceId 4) (qrUrlFor (mockInvoiceId 4))
    rfl rfl (by decide)

/-- Counterexample to C9 as stated: two createInvoice calls in the same
millisecond (timestamp 100) return the identical response — the same
invoice id `MOCK-100` — and after the second call only one invoice record
exists, the second having overwritten the first. -/
theorem C9_counterexample :
    (qpayHandler ⟨[], []⟩ 100 "POST" (some 100) (some "c1") (some "m1")
        QueryParam.missing).1.body =
      RespBody.created "MOCK-100" (qrUrlFor "MOCK-100") ∧
    (qpayHandler
        (qpayHandler ⟨[], []⟩ 100 "POST" (some 100) (some "c1") (some "m1")
          QueryParam.missing).2
        100 "POST" (some 100) (some "c1") (some "m1") QueryParam.missing).1.body =
      RespBody.created "MOCK-100" (qrUrlFor "MOCK-100") ∧
    (qpayHandler
        (qpayHandler ⟨[], []⟩ 100 "POST" (some 100) (some "c1") (some "m1")
          QueryParam.missing).2
        100 "POST" (some 100) (some "c1") (some "m1") QueryParam.missing).2.invoices =
      [("MOCK-100", ⟨InvoiceStatus.pending, 100⟩)] := by decide

/-- Claim C10: a GET whose invoice_id parameter arrived as an array of values
is answered 400 with no status lookup — the response is identical to the one
for a missing parameter, whatever the invoice store holds. -/
theorem C10_array_param_rejected (st : QpayState) (now : Nat) (amount : Option Int)
    (contractId milestoneId : Option String) (l : List String) :
    qpayHandler st now "GET" amount contractId milestoneId (QueryParam.multiple l) =
      ({ code := 400,
         body := RespBody.errorMsg "invoice_id query param is required" }, st) ∧
    qpayHandler st now "GET" amount contractId milestoneId (QueryParam.multiple l) =
      qpayHandler st now "GET" amount contractId milestoneId QueryParam.missing := by
  constructor <;> simp [qpayHandler]
